/-
Verification of the compliance-platform core (detection engine, remediation
engine, audit log, evidence export) against its natural-language
specification.

Shallow embedding conventions:
  * Database rows become Lean structures mirroring the SQLAlchemy models
    (src/backend/app/models).  Nullable columns become Option fields.
  * JSON columns holding string-to-string objects become association lists
    `List (String × String)`; JSON columns holding mixed-type objects become
    `List (String × JV)` with the small value type `JV` below.
  * Python truthiness on optional values is modelled explicitly (None and
    empty string / empty list / zero are falsy).
  * Timestamps are opaque strings supplied as parameters (the code calls
    datetime.utcnow(); the model threads a `now` argument).
  * Floats are modelled as exact rationals; Python round(x, 2) becomes
    round-half-to-even on ℚ.
  * async database side effects become explicit state passing: the detection
    engine returns a trace of database operations, the remediation engine
    returns the updated findings table and audit log.
-/
import Mathlib

namespace Autonomus

/-- JSON-ish values stored in mixed-type JSON columns (event_data,
remediation_details). -/
inductive JV where
  | s (v : String)
  | b (v : Bool)
  | n (v : Int)
  | o (v : List (String × String))
  | nul
deriving Repr, DecidableEq

/-- Association-list update with Python dict semantics for lookups:
the key is bound to the new value, any previous binding removed. -/
def dictInsert (d : List (String × JV)) (k : String) (v : JV) :
    List (String × JV) :=
  d.filter (fun p => p.1 ≠ k) ++ [(k, v)]

/-- Lookup in an association list (Python dict access). -/
def dictGet (d : List (String × JV)) (k : String) : Option JV :=
  (d.find? (fun p => p.1 = k)).map (·.2)

/-- Row of the cloud_accounts table (src/backend/app/models/cloud_account.py). -/
structure CloudAccount where
  id : Nat
  organization_id : Nat
  name : String
  provider : String
  account_id : String
  region : String
  credentials : List (String × String)
  is_active : Bool
  last_scan_at : Option String
  last_scan_status : Option String
deriving Repr, DecidableEq

/-- Row of the organizations table (src/backend/app/models/organization.py). -/
structure Organization where
  id : Nat
  name : String
  compliance_frameworks : List String
deriving Repr, DecidableEq

/-- Metadata snapshot stored on each ControlResult by
DetectionEngine._save_result (the control descriptor fields). -/
structure ControlMeta where
  control_title : String
  control_description : String
  category : String
  frameworks : List (String × List String)
deriving Repr, DecidableEq

/-- Row of the control_results table (src/backend/app/models/control_result.py).
A ControlResult is what the spec calls a Finding. -/
structure ControlResult where
  id : Nat
  cloud_account_id : Nat
  control_id : String
  status : String
  risk_level : String
  resource_id : Option String
  resource_type : Option String
  finding_details : List (String × String)
  evidence_before : List (String × String)
  evidence_after : Option (List (String × String))
  evidence_s3_key : Option String
  remediation_status : Option String
  remediation_approved_by : Option String
  remediation_executed_at : Option String
  remediation_details : List (String × JV)
  rollback_data : Option (List (String × String))
  scan_id : String
  detected_at : Option String
  resolved_at : Option String
  result_metadata : Option ControlMeta
deriving Repr, DecidableEq

/-- Row of the audit_logs table (src/backend/app/models/audit_log.py),
restricted to the fields the engines write. -/
structure AuditLogEntry where
  event_type : String
  action : String
  actor : String
  event_data : List (String × JV)
  cloud_account_id : Option Nat
  organization_id : Option Nat
  control_id : Option String
  resource_id : Option String
  control_result_id : Option Nat
  before_state : Option (List (String × String))
  after_state : Option (List (String × String))
  success : String
  error_message : Option String
deriving Repr, DecidableEq

/-- The column names declared on the AuditLog model
(src/backend/app/models/audit_log.py, lines 11-35), in declaration order. -/
def auditLogColumns : List String :=
  ["id", "control_result_id", "event_type", "action", "actor",
   "cloud_account_id", "organization_id", "control_id", "resource_id",
   "event_data", "before_state", "after_state",
   "ip_address", "user_agent", "timestamp", "success", "error_message"]

/-- Python truthiness of an optional integer (None and 0 are falsy). -/
def truthyNat (o : Option Nat) : Bool :=
  match o with
  | none => false
  | some n => n != 0

/-- Python truthiness of an optional string (None and "" are falsy). -/
def truthyStr (o : Option String) : Bool :=
  match o with
  | none => false
  | some s => s ≠ ""

/-- Python truthiness of an optional list (None and [] are falsy). -/
def truthyList (o : Option (List (String × String))) : Bool :=
  match o with
  | none => false
  | some l => l ≠ []

/-- Python round(x, 2): round to two decimal places, ties to even. -/
def roundTo2 (q : ℚ) : ℚ :=
  let x := q * 100
  let f := ⌊x⌋
  let r := x - (f : ℚ)
  let n : ℤ :=
    if r < 1/2 then f
    else if 1/2 < r then f + 1
    else if f % 2 = 0 then f else f + 1
  (n : ℚ) / 100

deriving instance DecidableEq for Except

/-- ControlFinding dataclass (src/backend/app/controls/base.py, lines 6-15). -/
structure ControlFinding where
  status : String
  resource_id : String
  resource_type : String
  finding_details : List (String × String)
  evidence : List (String × String)
  can_auto_remediate : Bool
  remediation_risk : String
deriving Repr, DecidableEq

/-- RemediationResult dataclass (src/backend/app/controls/base.py,
lines 18-26). -/
structure RemediationResult where
  success : Bool
  resource_id : Option String
  before_state : List (String × String)
  after_state : Option (List (String × String))
  rollback_data : Option (List (String × String))
  error_message : Option String
deriving Repr, DecidableEq

/-- The synthetic finding object the remediation engine reconstructs from a
persisted ControlResult and hands to Control.remediate
(src/backend/app/services/remediation_engine.py, lines 68-73). -/
structure SyntheticFinding where
  resource_id : Option String
  resource_type : Option String
  evidence : List (String × String)
  finding_details : List (String × String)
deriving Repr, DecidableEq

/-- A compliance control (src/backend/app/controls/base.py, BaseControl).
The three capability methods run against the cloud; their outcomes against
the cloud state under consideration are embedded as data: `Except.error msg`
models a thrown exception with message `msg`. -/
structure Control where
  control_id : String
  title : String
  description : String
  severity : String
  category : String
  frameworks : List (String × List String)
  detect : Except String (List ControlFinding)
  remediate : SyntheticFinding → Bool → Except String RemediationResult
  rollback : List (String × String) → Except String RemediationResult

namespace DetectionEngine

/-- Scope filter of get_compliance_score
(src/backend/app/services/detection_engine.py, lines 201-209): by account id
when truthy, else by organization id via a join on cloud_accounts, else no
filter. -/
def scopeResults (results : List ControlResult) (accounts : List CloudAccount)
    (account_id organization_id : Option Nat) : List ControlResult :=
  if truthyNat account_id then
    results.filter (fun r => r.cloud_account_id = account_id.getD 0)
  else if truthyNat organization_id then
    results.filter (fun r =>
      match accounts.find? (fun a => a.id = r.cloud_account_id) with
      | some a => a.organization_id = organization_id.getD 0
      | none => false)
  else results

/-- Counter(r.risk_level for r in results if r.status == "FAIL") — increment
the count of a key in an insertion-ordered multiset. -/
def bumpCount (m : List (String × Nat)) (k : String) : List (String × Nat) :=
  match m with
  | [] => [(k, 1)]
  | (k0, n) :: rest =>
      if k0 = k then (k0, n + 1) :: rest else (k0, n) :: bumpCount rest k

/-- DetectionEngine._get_by_severity: counts of FAIL results by risk level. -/
def get_by_severity (results : List ControlResult) : List (String × Nat) :=
  (results.filter (fun r => r.status = "FAIL")).foldl
    (fun m r => bumpCount m r.risk_level) []

/-- Return value of DetectionEngine.get_compliance_score.  `by_severity` is
`none` when the returned dict lacks the key (the empty-result early return). -/
structure ScoreResponse where
  score : ℚ
  total : Nat
  pass : Nat
  fail : Nat
  fixed : Nat
  by_severity : Option (List (String × Nat))
deriving Repr, DecidableEq

/-- DetectionEngine.get_compliance_score
(src/backend/app/services/detection_engine.py, lines 199-228). -/
def get_compliance_score (results : List ControlResult)
    (accounts : List CloudAccount) (account_id organization_id : Option Nat) :
    ScoreResponse :=
  let rs := scopeResults results accounts account_id organization_id
  if rs.isEmpty then
    { score := 0, total := 0, pass := 0, fail := 0, fixed := 0,
      by_severity := none }
  else
    let pass_count := rs.countP (fun r => r.status = "PASS")
    let fail_count := rs.countP (fun r => r.status = "FAIL")
    let fixed_count := rs.countP (fun r => r.status = "FIXED")
    let total := rs.length
    let score :=
      if total > 0 then ((pass_count + fixed_count : ℚ) / total) * 100 else 0
    { score := roundTo2 score, total := total, pass := pass_count,
      fail := fail_count, fixed := fixed_count,
      by_severity := some (get_by_severity rs) }

/-- A database side effect performed during a scan, in program order:
a commit of CloudAccount.last_scan_status, an added ControlResult row, or an
added AuditLog row.  (CloudAccount.last_scan_at, set together with the final
status, is wall-clock time and is not modelled.) -/
inductive DBOp where
  | setScanStatus (status : String)
  | saveResult (r : ControlResult)
  | audit (a : AuditLogEntry)
deriving Repr, DecidableEq

/-- DetectionEngine._save_result
(src/backend/app/services/detection_engine.py, lines 133-176): the
ControlResult row added and the detection AuditLog entry that follows it.
The row primary key and the server-assigned detected_at are left to the
database (id 0, detected_at none). -/
def save_result (account_id : Nat) (control : Control)
    (finding : Option ControlFinding) (status : String) (scan_id : String)
    (error_msg : Option String) : ControlResult × AuditLogEntry :=
  let row : ControlResult :=
    { id := 0
      cloud_account_id := account_id
      control_id := control.control_id
      status := status
      risk_level := control.severity
      resource_id := finding.map (·.resource_id)
      resource_type := finding.map (·.resource_type)
      finding_details :=
        match finding with
        | some f => f.finding_details
        | none => if truthyStr error_msg then [("error", error_msg.getD "")] else []
      evidence_before := (finding.map (·.evidence)).getD []
      evidence_after := none
      evidence_s3_key := none
      remediation_status := none
      remediation_approved_by := none
      remediation_executed_at := none
      remediation_details := []
      rollback_data := none
      scan_id := scan_id
      detected_at := none
      resolved_at := none
      result_metadata := some
        { control_title := control.title
          control_description := control.description
          category := control.category
          frameworks := control.frameworks } }
  let entry : AuditLogEntry :=
    { event_type := "detection"
      action := "Control " ++ control.control_id ++ ": " ++ status
      actor := "system"
      event_data :=
        [("status", .s status), ("severity", .s control.severity),
         ("finding", .o ((finding.map (·.finding_details)).getD []))]
      cloud_account_id := some account_id
      organization_id := none
      control_id := some control.control_id
      resource_id := finding.map (·.resource_id)
      control_result_id := none
      before_state := none
      after_state := none
      success := "success"
      error_message := none }
  (row, entry)

/-- One iteration of the scan loop over a control
(src/backend/app/services/detection_engine.py, lines 69-88): increments
(pass, fail, error, total findings) and database operations. -/
def runControl (account_id : Nat) (scan_id : String) (c : Control) :
    (Nat × Nat × Nat × Nat) × List DBOp :=
  match c.detect with
  | .ok findings =>
      if findings.isEmpty then
        let re := save_result account_id c none "PASS" scan_id none
        ((1, 0, 0, 0), [.saveResult re.1, .audit re.2])
      else
        ((0, findings.length, 0, findings.length),
         findings.flatMap (fun f =>
           let re := save_result account_id c (some f) f.status scan_id none
           [.saveResult re.1, .audit re.2]))
  | .error e =>
      let re := save_result account_id c none "ERROR" scan_id (some e)
      ((0, 0, 1, 0), [.saveResult re.1, .audit re.2])

/-- The scan loop over all selected controls, accumulating counts
(pass, fail, error, total findings) and database operations in order. -/
def processControls (account_id : Nat) (scan_id : String) :
    List Control → (Nat × Nat × Nat × Nat) × List DBOp
  | [] => ((0, 0, 0, 0), [])
  | c :: cs =>
      let r := runControl account_id scan_id c
      let rest := processControls account_id scan_id cs
      ((r.1.1 + rest.1.1, r.1.2.1 + rest.1.2.1,
        r.1.2.2.1 + rest.1.2.2.1, r.1.2.2.2 + rest.1.2.2.2),
       r.2 ++ rest.2)

/-- The ControlResult rows added by a list of database operations. -/
def savedRows (ops : List DBOp) : List ControlResult :=
  ops.filterMap (fun op =>
    match op with
    | .saveResult r => some r
    | _ => none)

/-- Summary dict returned by DetectionEngine.scan_account (timestamps not
modelled). -/
structure ScanSummary where
  scan_id : String
  account_id : Nat
  status : String
  total_controls : Nat
  pass : Nat
  fail : Nat
  error : Nat
  total_findings : Nat
deriving Repr, DecidableEq

/-- The control_ids filter of the scan
(src/backend/app/services/detection_engine.py, lines 61-63); an empty filter
list is falsy in Python and selects all provider controls. -/
def selectControls (baseControls : List Control)
    (control_ids : Option (List String)) : List Control :=
  match control_ids with
  | some ids =>
      if ids.isEmpty then baseControls
      else baseControls.filter (fun c => ids.contains c.control_id)
  | none => baseControls

/-- The body of the scan after last_scan_status=in_progress is committed
(src/backend/app/services/detection_engine.py, lines 51-125): provider
dispatch, control filtering, the detection loop, the final status commit and
the scan audit entry.  An unsupported provider raises; the outer except
handler commits last_scan_status=failed and re-raises. -/
def scanBody (account : CloudAccount) (awsControls : List Control)
    (account_id : Nat) (control_ids : Option (List String))
    (scan_id : String) : Except String ScanSummary × List DBOp :=
  let providerControls : Except String (List Control) :=
    if account.provider = "aws" then .ok awsControls
    else if account.provider = "azure" then .ok []
    else .error ("Unsupported provider: " ++ account.provider)
  match providerControls with
  | .error e => (.error e, [.setScanStatus "failed"])
  | .ok baseControls =>
      let controls := selectControls baseControls control_ids
      let pc := processControls account_id scan_id controls
      let scanEntry : AuditLogEntry :=
        { event_type := "scan"
          action := "Completed scan " ++ scan_id
          actor := "system"
          event_data :=
            [("scan_id", .s scan_id),
             ("controls_run", .n (controls.length : Int)),
             ("total_findings", .n (pc.1.2.2.2 : Int)),
             ("pass", .n (pc.1.1 : Int)), ("fail", .n (pc.1.2.1 : Int)),
             ("error", .n (pc.1.2.2.1 : Int))]
            -- duration_seconds is wall-clock time and is not modelled
          cloud_account_id := some account_id
          organization_id := some account.organization_id
          control_id := none
          resource_id := none
          control_result_id := none
          before_state := none
          after_state := none
          success := "success"
          error_message := none }
      (.ok { scan_id := scan_id
             account_id := account_id
             status := "completed"
             total_controls := controls.length
             pass := pc.1.1
             fail := pc.1.2.1
             error := pc.1.2.2.1
             total_findings := pc.1.2.2.2 },
       pc.2 ++ [.setScanStatus "success", .audit scanEntry])

/-- DetectionEngine.scan_account
(src/backend/app/services/detection_engine.py, lines 24-131).  `awsControls`
embeds the module-level AWS_CONTROLS list instantiated against the account
client; detection outcomes are carried inside each Control.  Returns the
result (the raised exception message on failure) together with the trace of
database operations in program order. -/
def scan_account (accounts : List CloudAccount) (awsControls : List Control)
    (account_id : Nat) (control_ids : Option (List String)) (scan_id : String) :
    Except String ScanSummary × List DBOp :=
  match accounts.find? (fun a => a.id = account_id) with
  | none => (.error ("Account " ++ toString account_id ++ " not found"), [])
  | some account =>
    -- account.last_scan_status = "in_progress" is committed first, then the
    -- body runs
    let body := scanBody account awsControls account_id control_ids scan_id
    (body.1, .setScanStatus "in_progress" :: body.2)

end DetectionEngine

namespace RemediationEngine

/-- Persistent state seen by the remediation engine: the control_results
table and the audit_logs table. -/
structure DBState where
  findings : List ControlResult
  audits : List AuditLogEntry
deriving Repr, DecidableEq

/-- Update the finding row with the given primary key. -/
def updateFinding (findings : List ControlResult) (fid : Nat)
    (f : ControlResult → ControlResult) : List ControlResult :=
  findings.map (fun r => if r.id = fid then f r else r)

/-- Python `x or default` on an optional string (None and "" are falsy). -/
def pyOr (o : Option String) (d : String) : String :=
  match o with
  | some s => if s = "" then d else s
  | none => d

/-- JSON value of an optional string (None becomes JSON null). -/
def jvOfOptStr (o : Option String) : JV :=
  match o with
  | some s => .s s
  | none => .nul

/-- Return dict of RemediationEngine.remediate_finding: the success shape
(lines 110-119 of src/backend/app/services/remediation_engine.py) or the
failure shape (lines 144-148). -/
inductive RemResponse where
  | ok (finding_id : Nat) (control_id : String) (dry_run : Bool)
      (resource_id : Option String) (before_state : List (String × String))
      (after_state : Option (List (String × String))) (message : String)
  | failed (finding_id : Nat) (error : Option String)
deriving Repr, DecidableEq

/-- Return dict of RemediationEngine.rollback_remediation. -/
inductive RollbackResponse where
  | ok (finding_id : Nat) (message : String)
  | failed (finding_id : Nat) (error : Option String)
deriving Repr, DecidableEq

/-- RemediationEngine.remediate_finding
(src/backend/app/services/remediation_engine.py, lines 23-152).
`Except.error msg` models a raised exception; the returned DBState is the
table contents after the call (unchanged when the call raises before any
commit). -/
def remediate_finding (controls : List Control) (accounts : List CloudAccount)
    (st : DBState) (finding_id : Nat) (dry_run : Bool)
    (approved_by : Option String) (now : String) :
    Except String RemResponse × DBState :=
  match st.findings.find? (fun r => r.id = finding_id) with
  | none => (.error ("Finding " ++ toString finding_id ++ " not found"), st)
  | some fr =>
    if ¬(fr.status = "FAIL" ∨ fr.status = "ERROR") then
      (.error ("Finding " ++ toString finding_id ++ " is not in remediable state"), st)
    else
      match accounts.find? (fun a => a.id = fr.cloud_account_id) with
      | none =>
          -- account is None: accessing account.provider raises AttributeError
          (.error "AttributeError", st)
      | some account =>
        match controls.find? (fun c => c.control_id = fr.control_id) with
        | none => (.error ("Control " ++ fr.control_id ++ " not found"), st)
        | some control =>
          let finding_obj : SyntheticFinding :=
            { resource_id := fr.resource_id
              resource_type := fr.resource_type
              evidence := fr.evidence_before
              finding_details := fr.finding_details }
          match control.remediate finding_obj dry_run with
          | .error e => (.error e, st)
          | .ok rr =>
            if rr.success then
              let findings1 :=
                if ¬dry_run then
                  updateFinding st.findings finding_id (fun r =>
                    { r with
                      status := "FIXED"
                      remediation_status := some "executed"
                      remediation_approved_by := approved_by
                      remediation_executed_at := some now
                      evidence_after := rr.after_state
                      rollback_data := rr.rollback_data
                      resolved_at := some now })
                else st.findings
              let entry : AuditLogEntry :=
                { event_type := "remediation"
                  action := (if dry_run then "Dry-run" else "Executed")
                    ++ " remediation for " ++ fr.control_id
                  actor := pyOr approved_by "system"
                  event_data :=
                    [("dry_run", .b dry_run), ("success", .b true),
                     ("finding_id", .n (finding_id : Int))]
                  cloud_account_id := some account.id
                  organization_id := some account.organization_id
                  control_id := some fr.control_id
                  resource_id := fr.resource_id
                  control_result_id := some finding_id
                  before_state := some rr.before_state
                  after_state := rr.after_state
                  success := "success"
                  error_message := none }
              (.ok (.ok finding_id fr.control_id dry_run fr.resource_id
                 rr.before_state rr.after_state
                 ("Remediation "
                   ++ (if dry_run then "simulated" else "executed")
                   ++ " successfully")),
               { findings := findings1, audits := st.audits ++ [entry] })
            else
              let findings1 :=
                if ¬dry_run then
                  updateFinding st.findings finding_id (fun r =>
                    { r with
                      remediation_status := some "failed"
                      remediation_details :=
                        [("error", jvOfOptStr rr.error_message)] })
                else st.findings
              let entry : AuditLogEntry :=
                { event_type := "remediation"
                  action := "Failed remediation for " ++ fr.control_id
                  actor := pyOr approved_by "system"
                  event_data :=
                    [("dry_run", .b dry_run), ("success", .b false),
                     ("error", jvOfOptStr rr.error_message)]
                  cloud_account_id := some account.id
                  organization_id := none
                  control_id := some fr.control_id
                  resource_id := fr.resource_id
                  control_result_id := some finding_id
                  before_state := none
                  after_state := none
                  success := "failure"
                  error_message := rr.error_message }
              (.ok (.failed finding_id rr.error_message),
               { findings := findings1, audits := st.audits ++ [entry] })

/-- RemediationEngine.rollback_remediation
(src/backend/app/services/remediation_engine.py, lines 154-232). -/
def rollback_remediation (controls : List Control)
    (accounts : List CloudAccount) (st : DBState) (finding_id : Nat)
    (rolled_back_by : String) (now : String) :
    Except String RollbackResponse × DBState :=
  match st.findings.find? (fun r => r.id = finding_id) with
  | none =>
      (.error ("Finding " ++ toString finding_id ++ " not in rollback-able state"), st)
  | some fr =>
    if fr.status ≠ "FIXED" then
      (.error ("Finding " ++ toString finding_id ++ " not in rollback-able state"), st)
    else if ¬truthyList fr.rollback_data then
      (.error ("No rollback data available for finding " ++ toString finding_id), st)
    else
      match accounts.find? (fun a => a.id = fr.cloud_account_id) with
      | none => (.error "AttributeError", st)
      | some account =>
        match controls.find? (fun c => c.control_id = fr.control_id) with
        | none => (.error ("Control " ++ fr.control_id ++ " not found"), st)
        | some control =>
          match control.rollback (fr.rollback_data.getD []) with
          | .error e => (.error e, st)
          | .ok rr =>
            if rr.success then
              let findings1 :=
                updateFinding st.findings finding_id (fun r =>
                  { r with
                    status := "FAIL"
                    remediation_status := some "rolled_back"
                    remediation_details :=
                      dictInsert
                        (dictInsert r.remediation_details
                          "rolled_back_at" (.s now))
                        "rolled_back_by" (.s rolled_back_by) })
              let entry : AuditLogEntry :=
                { event_type := "rollback"
                  action := "Rolled back remediation for " ++ fr.control_id
                  actor := rolled_back_by
                  event_data :=
                    [("finding_id", .n (finding_id : Int)),
                     ("success", .b true)]
                  cloud_account_id := some account.id
                  organization_id := none
                  control_id := some fr.control_id
                  resource_id := fr.resource_id
                  control_result_id := some finding_id
                  before_state := none
                  after_state := none
                  success := "success"
                  error_message := none }
              (.ok (.ok finding_id "Remediation rolled back successfully"),
               { findings := findings1, audits := st.audits ++ [entry] })
            else
              (.ok (.failed finding_id rr.error_message), st)

end RemediationEngine

/-- Values of the response dict of EvidenceEngine.export_audit_report.
`bytes` is present so that a response carrying the artifact inline could be
expressed; the code never builds one. -/
inductive RVal where
  | s (v : String)
  | n (v : Nat)
  | nul
  | bytes (v : List Nat)
deriving Repr, DecidableEq

/-- Whether a response value is a byte blob. -/
def isBytesVal : RVal → Bool
  | .bytes _ => true
  | _ => false

namespace EvidenceEngine

/-- A persisted audit_logs row as the evidence engine reads it: the entry
plus its server-assigned timestamp. -/
structure AuditRow where
  timestamp : String
  entry : AuditLogEntry
deriving Repr, DecidableEq

/-- EvidenceEngine.export_audit_report
(src/backend/app/services/evidence_engine.py, lines 30-135).
The PDF and JSON serializers are out-of-scope pure renderers; their outputs
are the parameters `pdfBytes` and `jsonBytes`.  `uploadOk` embeds whether the
object-storage put_object (and presigned-URL minting) succeeds; on success
the uploaded body is the selected report bytes.  Timestamps are opaque
ISO-ordered strings; the descending order_by only affects the serializer
input and is not modelled. -/
def export_audit_report (orgs : List Organization)
    (accounts : List CloudAccount) (logs : List AuditRow)
    (results : List ControlResult) (organization_id : Nat)
    (start_date end_date : Option String) (format : String)
    (_pdfBytes _jsonBytes : List Nat) (uploadOk : Bool)
    (presigned_url : String) (now timeKey : String) :
    Except String (List (String × RVal)) :=
  match orgs.find? (fun o => o.id = organization_id) with
  | none =>
      .error ("Organization " ++ toString organization_id ++ " not found")
  | some _ =>
    let audit_logs := logs.filter (fun l =>
      decide (l.entry.organization_id = some organization_id)
      && (match start_date with
          | some s => decide (s ≤ l.timestamp)
          | none => true)
      && (match end_date with
          | some e => decide (l.timestamp ≤ e)
          | none => true))
    let control_results := results.filter (fun r =>
      match accounts.find? (fun a => a.id = r.cloud_account_id) with
      | some a => decide (a.organization_id = organization_id)
      | none => false)
    let ext := if format = "pdf" then "pdf" else "json"
    -- report_data := pdfBytes or jsonBytes by format; it is the put_object
    -- body on the upload path and is dropped on the failure path
    let report_key :=
      "audit-reports/" ++ toString organization_id ++ "/" ++ timeKey
        ++ "." ++ ext
    if uploadOk then
      .ok [("report_key", .s report_key),
           ("download_url", .s presigned_url),
           ("format", .s format), ("generated_at", .s now),
           ("total_audit_logs", .n audit_logs.length),
           ("total_findings", .n control_results.length)]
    else
      .ok [("report_key", .s report_key),
           ("download_url", .nul),
           ("format", .s format), ("generated_at", .s now),
           ("total_audit_logs", .n audit_logs.length),
           ("total_findings", .n control_results.length),
           ("message",
            .s "Report generated successfully (S3 upload unavailable in demo mode)")]

end EvidenceEngine

/-! Concrete fixtures used to exercise the embedded engines. -/

/-- An AWS cloud account of organization 1. -/
def acctA : CloudAccount :=
  { id := 1, organization_id := 1, name := "acme-prod", provider := "aws"
    account_id := "123456789012", region := "us-east-1"
    credentials := [("role_arn", "arn:aws:iam::123456789012:role/scan")]
    is_active := true, last_scan_at := none, last_scan_status := none }

/-- A FAIL detection finding on an S3 bucket. -/
def findingB1 : ControlFinding :=
  { status := "FAIL", resource_id := "arn:aws:s3:::b1"
    resource_type := "s3_bucket"
    finding_details := [("public", "true")]
    evidence := [("blocked", "false")]
    can_auto_remediate := true, remediation_risk := "low" }

/-- A successful remediation outcome carrying rollback data. -/
def remOk : RemediationResult :=
  { success := true, resource_id := some "arn:aws:s3:::b1"
    before_state := [("blocked", "false")]
    after_state := some [("blocked", "true")]
    rollback_data := some [("blocked", "false")]
    error_message := none }

/-- A successful rollback outcome. -/
def rbOk : RemediationResult :=
  { success := true, resource_id := some "arn:aws:s3:::b1"
    before_state := []
    after_state := some [("blocked", "false")]
    rollback_data := none, error_message := none }

/-- The S3 public-access control with a failing bucket and working
remediation and rollback. -/
def ctrlS3 : Control :=
  { control_id := "AWS-S3-001", title := "S3 Block Public Access"
    description := "S3 buckets must block public access"
    severity := "critical", category := "storage"
    frameworks := [("SOC2", ["CC6.1"])]
    detect := .ok [findingB1]
    remediate := fun _ _ => .ok remOk
    rollback := fun _ => .ok rbOk }

/-- A control whose detection finds nothing (clean account). -/
def ctrlClean : Control :=
  { control_id := "AWS-IAM-001", title := "IAM root MFA"
    description := "Root account must have MFA"
    severity := "high", category := "iam"
    frameworks := [("SOC2", ["CC6.6"])]
    detect := .ok []
    remediate := fun _ _ => .ok remOk
    rollback := fun _ => .ok rbOk }

/-- A control whose detection raises an exception with an empty message. -/
def ctrlBoom : Control :=
  { control_id := "AWS-EC2-001", title := "EC2 IMDSv2"
    description := "Instances must require IMDSv2"
    severity := "medium", category := "compute"
    frameworks := [("SOC2", ["CC6.8"])]
    detect := .error ""
    remediate := fun _ _ => .ok remOk
    rollback := fun _ => .ok rbOk }

/-- A persisted FAIL finding for ctrlS3 on acctA. -/
def frFail : ControlResult :=
  { id := 1, cloud_account_id := 1, control_id := "AWS-S3-001"
    status := "FAIL", risk_level := "critical"
    resource_id := some "arn:aws:s3:::b1"
    resource_type := some "s3_bucket"
    finding_details := [("public", "true")]
    evidence_before := [("blocked", "false")]
    evidence_after := none, evidence_s3_key := none
    remediation_status := none, remediation_approved_by := none
    remediation_executed_at := none, remediation_details := []
    rollback_data := none, scan_id := "s1"
    detected_at := some "T0", resolved_at := none
    result_metadata := none }

/-- The same finding after a successful approved remediation. -/
def frFixed : ControlResult :=
  { frFail with
    status := "FIXED"
    remediation_status := some "executed"
    remediation_approved_by := some "a@x"
    remediation_executed_at := some "T1"
    evidence_after := some [("blocked", "true")]
    rollback_data := some [("blocked", "false")]
    resolved_at := some "T1" }

/-- Database state holding the single FAIL finding. -/
def stFail : RemediationEngine.DBState := { findings := [frFail], audits := [] }

/-- Database state holding the single FIXED finding. -/
def stFixed : RemediationEngine.DBState := { findings := [frFixed], audits := [] }

/-- A PASS row of account 1 (for the compliance score). -/
def rowPass : ControlResult :=
  { frFail with
    id := 10
    control_id := "AWS-IAM-001"
    status := "PASS"
    risk_level := "high"
    resource_id := none
    resource_type := none
    finding_details := []
    evidence_before := [] }

/-- An ERROR row of account 1 (for the compliance score). -/
def rowErr : ControlResult :=
  { frFail with
    id := 11
    control_id := "AWS-EC2-001"
    status := "ERROR"
    risk_level := "medium"
    resource_id := none
    resource_type := none
    finding_details := [("error", "boom")]
    evidence_before := [] }

/-- Organization 1. -/
def orgA : Organization :=
  { id := 1, name := "Acme", compliance_frameworks := ["SOC2"] }

/-- The compliance-score formula as the spec words it: (PASS + FIXED) over
(PASS + FAIL + FIXED), ERROR and MANUAL excluded from the denominator.
Stated for comparison against the implemented score. -/
def specComplianceFraction (results : List ControlResult) : ℚ :=
  let p := results.countP (fun r => r.status = "PASS")
  let f := results.countP (fun r => r.status = "FAIL")
  let x := results.countP (fun r => r.status = "FIXED")
  (p + x : ℚ) / (p + f + x)

/-! ## Helper lemmas on dictionary updates -/

theorem dictGet_insert_self (d : List (String × JV)) (k : String) (v : JV) :
    dictGet (dictInsert d k v) k = some v := by
  unfold dictGet dictInsert
  rw [List.find?_append]
  have h1 : (d.filter (fun p => p.1 ≠ k)).find? (fun p => p.1 = k) = none := by
    rw [List.find?_eq_none]
    intro x hx
    have hmem := List.of_mem_filter hx
    simp at hmem ⊢
    exact hmem
  rw [h1]
  simp [List.find?]

theorem dictGet_insert_ne (d : List (String × JV)) (k kx : String) (v : JV)
    (h : kx ≠ k) : dictGet (dictInsert d k v) kx = dictGet d kx := by
  unfold dictGet dictInsert
  rw [List.find?_append]
  have hfilter : (d.filter (fun p => p.1 ≠ k)).find? (fun p => p.1 = kx)
      = d.find? (fun p => p.1 = kx) := by
    induction d with
    | nil => rfl
    | cons q rest ih =>
      by_cases hq : q.1 = k
      · have h1 : ¬(q.1 = kx) := fun hh => h (by rw [← hh]; exact hq)
        rw [List.filter_cons_of_neg (by simp [hq]),
          List.find?_cons_of_neg _ (by simpa using h1), ih]
      · by_cases hqx : q.1 = kx
        · rw [List.filter_cons_of_pos (by simp [hq]),
            List.find?_cons_of_pos _ (by simpa using hqx),
            List.find?_cons_of_pos _ (by simpa using hqx)]
        · rw [List.filter_cons_of_pos (by simp [hq]),
            List.find?_cons_of_neg _ (by simpa using hqx),
            List.find?_cons_of_neg _ (by simpa using hqx), ih]
  rw [hfilter]
  have h2 : ¬(k = kx) := fun hh => h hh.symm
  cases hd : d.find? (fun p => p.1 = kx) with
  | some x => rfl
  | none => simp [List.find?, h2]

theorem processControls_ops_append (aid : Nat) (sid : String)
    (l1 l2 : List Control) :
    (DetectionEngine.processControls aid sid (l1 ++ l2)).2
      = (DetectionEngine.processControls aid sid l1).2
        ++ (DetectionEngine.processControls aid sid l2).2 := by
  induction l1 with
  | nil => simp [DetectionEngine.processControls]
  | cons c cs ih => simp [DetectionEngine.processControls, ih]

theorem savedRows_append (a b : List DetectionEngine.DBOp) :
    DetectionEngine.savedRows (a ++ b)
      = DetectionEngine.savedRows a ++ DetectionEngine.savedRows b := by
  simp [DetectionEngine.savedRows, List.filterMap_append]

/-! ## Claims -/

/-- Claim C1, counterexample: the audit_logs schema has neither a prevHash
nor a hash column, so no entry can store the claimed hash chain. -/
theorem C1_counterexample :
    ¬("prev_hash" ∈ auditLogColumns ∧ "hash" ∈ auditLogColumns) := by
  decide

/-- Claim C1, amended: AuditLog entries carry only plain event fields; the
schema has no prevHash and no hash column, no hash is computed on write, and
therefore no replayable hash chain exists. -/
theorem C1_no_hash_chain :
    "prev_hash" ∉ auditLogColumns ∧ "hash" ∉ auditLogColumns := by
  decide

/-- Claim C2 (code bug): a non-dry-run remediation with approvedBy missing
is not rejected.  On a FAIL finding whose control remediation succeeds, the
engine executes the remediation, returns success, and persists
status=FIXED with remediation_approved_by=None — no validation error is
raised and the Finding transition is persisted. -/
theorem C2_missing_approver_executes :
    (RemediationEngine.remediate_finding [ctrlS3] [acctA] stFail 1 false
        none "T1").1
      = .ok (.ok 1 "AWS-S3-001" false (some "arn:aws:s3:::b1")
          [("blocked", "false")] (some [("blocked", "true")])
          "Remediation executed successfully")
    ∧ ((RemediationEngine.remediate_finding [ctrlS3] [acctA] stFail 1 false
          none "T1").2.findings.map
            (fun r => (r.status, r.remediation_approved_by)))
        = [("FIXED", none)] := by
  decide

/-- Claim C5, counterexample: with one PASS and one ERROR result in scope,
the implemented score is 50 (the ERROR row is counted in the denominator
and the ratio is scaled to a percentage), while the claimed formula
(PASS + FIXED) / (PASS + FAIL + FIXED) gives 1; the score equals neither the
fraction nor 100 times it. -/
theorem C5_counterexample :
    (DetectionEngine.get_compliance_score [rowPass, rowErr] [acctA]
        (some 1) none).score = 50
    ∧ specComplianceFraction
        (DetectionEngine.scopeResults [rowPass, rowErr] [acctA]
          (some 1) none) = 1
    ∧ (DetectionEngine.get_compliance_score [rowPass, rowErr] [acctA]
        (some 1) none).score
      ≠ specComplianceFraction
          (DetectionEngine.scopeResults [rowPass, rowErr] [acctA]
            (some 1) none)
    ∧ (DetectionEngine.get_compliance_score [rowPass, rowErr] [acctA]
        (some 1) none).score
      ≠ 100 * specComplianceFraction
          (DetectionEngine.scopeResults [rowPass, rowErr] [acctA]
            (some 1) none) := by
  have h1 : DetectionEngine.scopeResults [rowPass, rowErr] [acctA]
      (some 1) none = [rowPass, rowErr] := by decide
  have h2 : (DetectionEngine.get_compliance_score [rowPass, rowErr] [acctA]
      (some 1) none).score = roundTo2 ((1 + 0 : ℚ) / 2 * 100) := by
    simp +decide [DetectionEngine.get_compliance_score, h1, List.countP,
      List.countP.go]
  have h3 : roundTo2 ((1 + 0 : ℚ) / 2 * 100) = 50 := by norm_num [roundTo2]
  have h4 : specComplianceFraction [rowPass, rowErr] = 1 := by
    simp +decide [specComplianceFraction, List.countP, List.countP.go]
  refine ⟨by rw [h2, h3], by rw [h1, h4], ?_, ?_⟩
  · rw [h2, h3, h1, h4]; norm_num
  · rw [h2, h3, h1, h4]; norm_num

/-- Claim C5, amended: over a nonempty scoped set, the score is
(PASS + FIXED) divided by the total number of scoped findings of any status
— ERROR and MANUAL rows included in the denominator — scaled to a
percentage and rounded to two decimals; the reported total is that same
count of all scoped findings. -/
theorem C5_score_formula (results : List ControlResult)
    (accounts : List CloudAccount) (account_id organization_id : Option Nat)
    (h : DetectionEngine.scopeResults results accounts account_id
        organization_id ≠ []) :
    (DetectionEngine.get_compliance_score results accounts account_id
        organization_id).score
      = roundTo2
          ((((DetectionEngine.scopeResults results accounts account_id
                organization_id).countP (fun r => r.status = "PASS")
              + (DetectionEngine.scopeResults results accounts account_id
                organization_id).countP (fun r => r.status = "FIXED") : ℚ))
            / (DetectionEngine.scopeResults results accounts account_id
                organization_id).length * 100)
    ∧ (DetectionEngine.get_compliance_score results accounts account_id
        organization_id).total
      = (DetectionEngine.scopeResults results accounts account_id
          organization_id).length := by
  have hne : (DetectionEngine.scopeResults results accounts account_id
      organization_id).isEmpty = false := by
    cases hrs : DetectionEngine.scopeResults results accounts account_id
        organization_id with
    | nil => exact absurd hrs h
    | cons a l => rfl
  have hlen : 0 < (DetectionEngine.scopeResults results accounts account_id
      organization_id).length := by
    cases hrs : DetectionEngine.scopeResults results accounts account_id
        organization_id with
    | nil => exact absurd hrs h
    | cons a l => simp
  constructor
  · simp [DetectionEngine.get_compliance_score, hne, hlen]
  · simp [DetectionEngine.get_compliance_score, hne]

/-- Claim C5, witness: the amended formula instantiated on the
PASS-plus-ERROR scope. -/
theorem C5_score_formula_witness :
    DetectionEngine.scopeResults [rowPass, rowErr] [acctA] (some 1) none ≠ []
    ∧ ((DetectionEngine.get_compliance_score [rowPass, rowErr] [acctA]
          (some 1) none).score
        = roundTo2
            ((((DetectionEngine.scopeResults [rowPass, rowErr] [acctA]
                  (some 1) none).countP (fun r => r.status = "PASS")
                + (DetectionEngine.scopeResults [rowPass, rowErr] [acctA]
                  (some 1) none).countP (fun r => r.status = "FIXED") : ℚ))
              / (DetectionEngine.scopeResults [rowPass, rowErr] [acctA]
                  (some 1) none).length * 100)
      ∧ (DetectionEngine.get_compliance_score [rowPass, rowErr] [acctA]
          (some 1) none).total
        = (DetectionEngine.scopeResults [rowPass, rowErr] [acctA]
            (some 1) none).length) :=
  ⟨by decide,
   C5_score_formula [rowPass, rowErr] [acctA] (some 1) none (by decide)⟩

/-- Claim C3, counterexample: after a successful non-dry-run remediation the
finding is FIXED, and a second remediate call on the same finding raises
ValueError (not in remediable state) instead of returning a success with
noop=true; the state, audit log included, is left exactly as it was. -/
theorem C3_counterexample :
    (RemediationEngine.remediate_finding [ctrlS3] [acctA] stFail 1 false
        (some "a@x") "T1").1
      = .ok (.ok 1 "AWS-S3-001" false (some "arn:aws:s3:::b1")
          [("blocked", "false")] (some [("blocked", "true")])
          "Remediation executed successfully")
    ∧ RemediationEngine.remediate_finding [ctrlS3] [acctA]
        ((RemediationEngine.remediate_finding [ctrlS3] [acctA] stFail 1 false
            (some "a@x") "T1").2) 1 false (some "a@x") "T2"
      = (.error "Finding 1 is not in remediable state",
         (RemediationEngine.remediate_finding [ctrlS3] [acctA] stFail 1 false
            (some "a@x") "T1").2) := by
  decide

/-- Claim C3, amended: a retried remediate on a Finding whose target state
already holds (status FIXED) is rejected with ValueError and has no side
effects — no re-application and no new AuditLog entry; a retried rollback
(the finding being back in FAIL) is likewise rejected with ValueError and no
side effects.  No noop success is returned. -/
theorem C3_retry_rejected (controls : List Control)
    (accounts : List CloudAccount) (st : RemediationEngine.DBState)
    (fid : Nat) (dry : Bool) (ab : Option String) (actor now : String)
    (fr : ControlResult)
    (hfind : st.findings.find? (fun r => r.id = fid) = some fr) :
    (fr.status = "FIXED" →
        RemediationEngine.remediate_finding controls accounts st fid dry ab now
          = (.error ("Finding " ++ toString fid
              ++ " is not in remediable state"), st))
    ∧ (fr.status ≠ "FIXED" →
        RemediationEngine.rollback_remediation controls accounts st fid
            actor now
          = (.error ("Finding " ++ toString fid
              ++ " not in rollback-able state"), st)) := by
  constructor
  · intro h
    unfold RemediationEngine.remediate_finding
    rw [hfind]
    simp +decide [h]
  · intro h
    unfold RemediationEngine.rollback_remediation
    rw [hfind]
    simp +decide [h]

/-- Claim C3, witness: the retried remediate and the retried rollback on the
FIXED fixture are both rejected with the state unchanged. -/
theorem C3_retry_rejected_witness :
    stFixed.findings.find? (fun r => r.id = 1) = some frFixed
    ∧ RemediationEngine.remediate_finding [ctrlS3] [acctA] stFixed 1 false
        (some "a@x") "T2"
      = (.error "Finding 1 is not in remediable state", stFixed) :=
  ⟨by decide,
   (C3_retry_rejected [ctrlS3] [acctA] stFixed 1 false (some "a@x") "a@x"
      "T2" frFixed (by decide)).1 (by decide)⟩

/-- Claim C4, counterexample: a scan on an account whose last_scan_status is
in_progress is not refused — it runs to completion and returns a completed
summary. -/
theorem C4_counterexample :
    (DetectionEngine.scan_account
        [{acctA with last_scan_status := some "in_progress"}] [ctrlClean] 1
        none "scan-1").1
      = .ok { scan_id := "scan-1", account_id := 1, status := "completed",
              total_controls := 1, pass := 1, fail := 0, error := 0,
              total_findings := 0 } := by
  decide

/-- Claim C4, amended: the engine never refuses a scan based on
lastScanStatus — the whole scan outcome is independent of the stored
lastScanStatus — and for any found account the first database operation is
the commit of lastScanStatus=inProgress, before any control result is
saved. -/
theorem C4_sets_in_progress_unconditionally (accounts : List CloudAccount)
    (cs : List Control) (aid : Nat) (cids : Option (List String))
    (sid : String) (acct : CloudAccount)
    (hfind : accounts.find? (fun a => a.id = aid) = some acct) :
    (∃ rest, (DetectionEngine.scan_account accounts cs aid cids sid).2
        = DetectionEngine.DBOp.setScanStatus "in_progress" :: rest)
    ∧ ∀ s : Option String,
        DetectionEngine.scan_account [{acct with last_scan_status := s}] cs
            acct.id cids sid
          = DetectionEngine.scan_account [acct] cs acct.id cids sid := by
  constructor
  · unfold DetectionEngine.scan_account
    rw [hfind]
    exact ⟨_, rfl⟩
  · intro s
    cases acct
    unfold DetectionEngine.scan_account
    rw [List.find?_cons_of_pos _ (by simp), List.find?_cons_of_pos _ (by simp)]
    rfl

/-- Claim C4, witness: the in-progress fixture account satisfies the lookup
hypothesis and its scan trace begins with the in_progress commit. -/
theorem C4_witness :
    [{acctA with last_scan_status := some "in_progress"}].find?
        (fun a => a.id = 1)
      = some {acctA with last_scan_status := some "in_progress"}
    ∧ (∃ rest, (DetectionEngine.scan_account
          [{acctA with last_scan_status := some "in_progress"}] [ctrlClean] 1
          none "scan-1").2
        = DetectionEngine.DBOp.setScanStatus "in_progress" :: rest) :=
  ⟨by decide,
   (C4_sets_in_progress_unconditionally
      [{acctA with last_scan_status := some "in_progress"}] [ctrlClean] 1
      none "scan-1" {acctA with last_scan_status := some "in_progress"}
      (by decide)).1⟩

/-- Claim C6: for a Finding in status FIXED with truthy rollback data, a
successful rollback returns success, appends one rollback AuditLog entry
naming the actor and the finding, and rewrites the finding row to status
FAIL, remediation_status rolled_back, with rolled_back_at and rolled_back_by
recorded in remediation_details while evidence_after and rollback_data are
left unchanged; a rollback on a finding not in FIXED, or without truthy
rollback data, is rejected with a raised error and no state change. -/
theorem C6_rollback_semantics (controls : List Control)
    (accounts : List CloudAccount) (st : RemediationEngine.DBState)
    (fid : Nat) (actor now : String) (fr : ControlResult)
    (hfind : st.findings.find? (fun r => r.id = fid) = some fr) :
    (∀ (acct : CloudAccount) (control : Control) (rr : RemediationResult),
        fr.status = "FIXED" →
        truthyList fr.rollback_data = true →
        accounts.find? (fun a => a.id = fr.cloud_account_id) = some acct →
        controls.find? (fun c => c.control_id = fr.control_id)
          = some control →
        control.rollback (fr.rollback_data.getD []) = .ok rr →
        rr.success = true →
        ((RemediationEngine.rollback_remediation controls accounts st fid
            actor now).1
          = .ok (.ok fid "Remediation rolled back successfully")
        ∧ (∃ e, (RemediationEngine.rollback_remediation controls accounts st
              fid actor now).2.audits = st.audits ++ [e]
            ∧ e.event_type = "rollback" ∧ e.actor = actor
            ∧ e.control_result_id = some fid)
        ∧ ∀ r ∈ st.findings,
            if r.id = fid then
              ({ r with
                 status := "FAIL"
                 remediation_status := some "rolled_back"
                 remediation_details := dictInsert
                   (dictInsert r.remediation_details "rolled_back_at"
                     (.s now)) "rolled_back_by" (.s actor) }
                ∈ (RemediationEngine.rollback_remediation controls accounts
                    st fid actor now).2.findings)
              ∧ ({ r with
                   status := "FAIL"
                   remediation_status := some "rolled_back"
                   remediation_details := dictInsert
                     (dictInsert r.remediation_details "rolled_back_at"
                       (.s now)) "rolled_back_by" (.s actor)
                   : ControlResult }).evidence_after = r.evidence_after
              ∧ ({ r with
                   status := "FAIL"
                   remediation_status := some "rolled_back"
                   remediation_details := dictInsert
                     (dictInsert r.remediation_details "rolled_back_at"
                       (.s now)) "rolled_back_by" (.s actor)
                   : ControlResult }).rollback_data = r.rollback_data
              ∧ dictGet (dictInsert (dictInsert r.remediation_details
                    "rolled_back_at" (.s now)) "rolled_back_by" (.s actor))
                  "rolled_back_at" = some (.s now)
              ∧ dictGet (dictInsert (dictInsert r.remediation_details
                    "rolled_back_at" (.s now)) "rolled_back_by" (.s actor))
                  "rolled_back_by" = some (.s actor)
            else r ∈ (RemediationEngine.rollback_remediation controls accounts
                st fid actor now).2.findings))
    ∧ (fr.status ≠ "FIXED" →
        RemediationEngine.rollback_remediation controls accounts st fid actor
            now
          = (.error ("Finding " ++ toString fid
              ++ " not in rollback-able state"), st))
    ∧ (fr.status = "FIXED" → truthyList fr.rollback_data = false →
        RemediationEngine.rollback_remediation controls accounts st fid actor
            now
          = (.error ("No rollback data available for finding "
              ++ toString fid), st)) := by
  refine ⟨?_, ?_, ?_⟩
  · intro acct control rr hstat htr hacct hctrl hroll hsucc
    have H : RemediationEngine.rollback_remediation controls accounts st fid
        actor now
      = (.ok (.ok fid "Remediation rolled back successfully"),
         { findings := RemediationEngine.updateFinding st.findings fid
             (fun r =>
               { r with
                 status := "FAIL"
                 remediation_status := some "rolled_back"
                 remediation_details := dictInsert
                   (dictInsert r.remediation_details "rolled_back_at"
                     (.s now)) "rolled_back_by" (.s actor) })
           audits := st.audits ++
             [{ event_type := "rollback"
                action := "Rolled back remediation for " ++ fr.control_id
                actor := actor
                event_data := [("finding_id", .n (fid : Int)),
                  ("success", .b true)]
                cloud_account_id := some acct.id
                organization_id := none
                control_id := some fr.control_id
                resource_id := fr.resource_id
                control_result_id := some fid
                before_state := none
                after_state := none
                success := "success"
                error_message := none }] }) := by
      unfold RemediationEngine.rollback_remediation
      rw [hfind]
      simp +decide [hstat, htr, hacct, hctrl, hroll, hsucc]
    refine ⟨by rw [H], ⟨_, by rw [H], rfl, rfl, rfl⟩, ?_⟩
    intro r hr
    by_cases hid : r.id = fid
    · rw [if_pos hid, H]
      refine ⟨?_, rfl, rfl,
        by rw [dictGet_insert_ne _ _ _ _ (by decide), dictGet_insert_self],
        dictGet_insert_self _ _ _⟩
      unfold RemediationEngine.updateFinding
      have hm := List.mem_map_of_mem (f := fun r : ControlResult =>
        if r.id = fid then
          { r with
            status := "FAIL"
            remediation_status := some "rolled_back"
            remediation_details := dictInsert
              (dictInsert r.remediation_details "rolled_back_at" (.s now))
              "rolled_back_by" (.s actor) }
        else r) hr
      simpa [hid] using hm
    · rw [if_neg hid, H]
      unfold RemediationEngine.updateFinding
      have hm := List.mem_map_of_mem (f := fun r : ControlResult =>
        if r.id = fid then
          { r with
            status := "FAIL"
            remediation_status := some "rolled_back"
            remediation_details := dictInsert
              (dictInsert r.remediation_details "rolled_back_at" (.s now))
              "rolled_back_by" (.s actor) }
        else r) hr
      simpa [hid] using hm
  · intro hstat
    unfold RemediationEngine.rollback_remediation
    rw [hfind]
    simp [hstat]
  · intro hstat htr
    unfold RemediationEngine.rollback_remediation
    rw [hfind]
    simp +decide [hstat, htr]

/-- Claim C6, witness: the rollback of the FIXED fixture finding succeeds. -/
theorem C6_rollback_semantics_witness :
    truthyList frFixed.rollback_data = true
    ∧ (RemediationEngine.rollback_remediation [ctrlS3] [acctA] stFixed 1
        "a@x" "T2").1
      = .ok (.ok 1 "Remediation rolled back successfully") :=
  ⟨by decide,
   ((C6_rollback_semantics [ctrlS3] [acctA] stFixed 1 "a@x" "T2" frFixed
      (by decide)).1 acctA ctrlS3 rbOk (by decide) (by decide) (by decide)
      rfl rfl rfl).1⟩

/-- Claim C8: a successful dry-run remediation leaves the findings table —
and thus every persisted field of the Finding — unchanged, appends exactly
one remediation AuditLog entry whose event_data records dry_run=true, and
returns the projected after_state from the control. -/
theorem C8_dry_run_frame (controls : List Control)
    (accounts : List CloudAccount) (st : RemediationEngine.DBState)
    (fid : Nat) (ab : Option String) (now : String) (fr : ControlResult)
    (acct : CloudAccount) (control : Control) (rr : RemediationResult)
    (hfind : st.findings.find? (fun r => r.id = fid) = some fr)
    (hstat : fr.status = "FAIL" ∨ fr.status = "ERROR")
    (hacct : accounts.find? (fun a => a.id = fr.cloud_account_id) = some acct)
    (hctrl : controls.find? (fun c => c.control_id = fr.control_id)
      = some control)
    (hrem : control.remediate
        { resource_id := fr.resource_id, resource_type := fr.resource_type,
          evidence := fr.evidence_before,
          finding_details := fr.finding_details } true = .ok rr)
    (hsucc : rr.success = true) :
    (RemediationEngine.remediate_finding controls accounts st fid true ab
        now).2.findings = st.findings
    ∧ (∃ e, (RemediationEngine.remediate_finding controls accounts st fid
          true ab now).2.audits = st.audits ++ [e]
        ∧ e.event_type = "remediation"
        ∧ e.event_data.find? (fun p => p.1 = "dry_run")
            = some ("dry_run", .b true))
    ∧ (RemediationEngine.remediate_finding controls accounts st fid true ab
        now).1
      = .ok (.ok fid fr.control_id true fr.resource_id rr.before_state
          rr.after_state "Remediation simulated successfully") := by
  have H : RemediationEngine.remediate_finding controls accounts st fid true
      ab now
    = (.ok (.ok fid fr.control_id true fr.resource_id rr.before_state
          rr.after_state "Remediation simulated successfully"),
       { findings := st.findings
         audits := st.audits ++
           [{ event_type := "remediation"
              action := "Dry-run remediation for " ++ fr.control_id
              actor := RemediationEngine.pyOr ab "system"
              event_data := [("dry_run", .b true), ("success", .b true),
                ("finding_id", .n (fid : Int))]
              cloud_account_id := some acct.id
              organization_id := some acct.organization_id
              control_id := some fr.control_id
              resource_id := fr.resource_id
              control_result_id := some fid
              before_state := some rr.before_state
              after_state := rr.after_state
              success := "success"
              error_message := none }] }) := by
    unfold RemediationEngine.remediate_finding
    rw [hfind]
    rcases hstat with h | h <;>
      simp +decide [h, hacct, hctrl, hrem, hsucc]
  refine ⟨by rw [H], ⟨_, by rw [H], rfl, by simp [List.find?]⟩, by rw [H]⟩

/-- Claim C8, witness: the dry-run on the FAIL fixture finding. -/
theorem C8_dry_run_frame_witness :
    stFail.findings.find? (fun r => r.id = 1) = some frFail
    ∧ (RemediationEngine.remediate_finding [ctrlS3] [acctA] stFail 1 true
        (some "a@x") "T1").2.findings = stFail.findings
    ∧ (RemediationEngine.remediate_finding [ctrlS3] [acctA] stFail 1 true
        (some "a@x") "T1").1
      = .ok (.ok 1 frFail.control_id true frFail.resource_id remOk.before_state
          remOk.after_state "Remediation simulated successfully") :=
  ⟨by decide,
   (C8_dry_run_frame [ctrlS3] [acctA] stFail 1 (some "a@x") "T1" frFail acctA
      ctrlS3 remOk (by decide) (Or.inl (by decide)) (by decide) rfl
      rfl rfl).1,
   (C8_dry_run_frame [ctrlS3] [acctA] stFail 1 (some "a@x") "T1" frFail acctA
      ctrlS3 remOk (by decide) (Or.inl (by decide)) (by decide) rfl
      rfl rfl).2.2⟩

/-- Claim C7, counterexample: a control whose detect raises an exception
with an empty message yields one ERROR Finding whose finding_details is the
empty dict — there is no error key carrying the message — although the scan
does complete successfully. -/
theorem C7_counterexample :
    ((DetectionEngine.savedRows (DetectionEngine.scan_account [acctA]
        [ctrlBoom] 1 none "s1").2).map
      (fun r => (r.status, r.resource_id, r.finding_details)))
      = [("ERROR", none, [])]
    ∧ (DetectionEngine.scan_account [acctA] [ctrlBoom] 1 none "s1").1
      = .ok { scan_id := "s1", account_id := 1, status := "completed",
              total_controls := 1, pass := 0, fail := 0, error := 1,
              total_findings := 0 } := by
  decide

/-- Claim C7, amended: a control whose detect raises contributes exactly one
ERROR Finding with resourceId null; its finding_details carries the message
under the error key when the message is non-empty, and is empty for an empty
message.  The scan still runs every other control and completes with a
success status. -/
theorem C7_error_finding_continues (accounts : List CloudAccount)
    (cs1 cs2 : List Control) (c : Control) (msg : String) (aid : Nat)
    (sid : String) (acct : CloudAccount)
    (hfind : accounts.find? (fun a => a.id = aid) = some acct)
    (hprov : acct.provider = "aws")
    (hdet : c.detect = .error msg) :
    (∃ s, (DetectionEngine.scan_account accounts (cs1 ++ c :: cs2) aid none
        sid).1 = .ok s ∧ s.status = "completed")
    ∧ DetectionEngine.DBOp.setScanStatus "success"
        ∈ (DetectionEngine.scan_account accounts (cs1 ++ c :: cs2) aid none
            sid).2
    ∧ DetectionEngine.savedRows (DetectionEngine.scan_account accounts
        (cs1 ++ c :: cs2) aid none sid).2
      = DetectionEngine.savedRows
          (DetectionEngine.processControls aid sid cs1).2
        ++ (DetectionEngine.save_result aid c none "ERROR" sid (some msg)).1
          :: DetectionEngine.savedRows
              (DetectionEngine.processControls aid sid cs2).2
    ∧ (DetectionEngine.save_result aid c none "ERROR" sid
        (some msg)).1.status = "ERROR"
    ∧ (DetectionEngine.save_result aid c none "ERROR" sid
        (some msg)).1.resource_id = none
    ∧ (DetectionEngine.save_result aid c none "ERROR" sid
        (some msg)).1.finding_details
      = (if msg = "" then [] else [("error", msg)]) := by
  have hscan : DetectionEngine.scan_account accounts (cs1 ++ c :: cs2) aid
      none sid
    = ((DetectionEngine.scanBody acct (cs1 ++ c :: cs2) aid none sid).1,
       .setScanStatus "in_progress"
         :: (DetectionEngine.scanBody acct (cs1 ++ c :: cs2) aid none
              sid).2) := by
    unfold DetectionEngine.scan_account
    rw [hfind]
  have hrun : (DetectionEngine.runControl aid sid c).2
      = [.saveResult (DetectionEngine.save_result aid c none "ERROR" sid
          (some msg)).1,
         .audit (DetectionEngine.save_result aid c none "ERROR" sid
          (some msg)).2] := by
    unfold DetectionEngine.runControl
    rw [hdet]
  have hops : (DetectionEngine.processControls aid sid (cs1 ++ c :: cs2)).2
      = (DetectionEngine.processControls aid sid cs1).2
        ++ ((DetectionEngine.runControl aid sid c).2
          ++ (DetectionEngine.processControls aid sid cs2).2) := by
    rw [processControls_ops_append]
    rfl
  have hb2 : ∃ e, (DetectionEngine.scanBody acct (cs1 ++ c :: cs2) aid none
      sid).2
        = (DetectionEngine.processControls aid sid (cs1 ++ c :: cs2)).2
          ++ [.setScanStatus "success", .audit e] := by
    unfold DetectionEngine.scanBody
    simp only [hprov, if_pos]
    exact ⟨_, rfl⟩
  have hb1 : ∃ s, (DetectionEngine.scanBody acct (cs1 ++ c :: cs2) aid none
      sid).1 = .ok s ∧ s.status = "completed" := by
    unfold DetectionEngine.scanBody
    simp only [hprov, if_pos]
    exact ⟨_, rfl, rfl⟩
  obtain ⟨e, he⟩ := hb2
  obtain ⟨s, hs1, hs2⟩ := hb1
  refine ⟨⟨s, by rw [hscan]; exact hs1, hs2⟩, ?_, ?_, rfl, rfl, ?_⟩
  · rw [hscan]
    simp [he]
  · rw [hscan]
    show DetectionEngine.savedRows (.setScanStatus "in_progress" :: _) = _
    rw [he, hops, hrun]
    simp [DetectionEngine.savedRows, List.filterMap_append]
  · unfold DetectionEngine.save_result
    by_cases hm : msg = ""
    · simp [hm, truthyStr]
    · simp [hm, truthyStr]

/-- Claim C7, witness: the amended statement instantiated with the
empty-message failing control after one clean control. -/
theorem C7_error_finding_continues_witness :
    ctrlBoom.detect = .error ""
    ∧ (∃ s, (DetectionEngine.scan_account [acctA]
        ([ctrlClean] ++ ctrlBoom :: []) 1 none "s1").1 = .ok s
        ∧ s.status = "completed") :=
  ⟨rfl,
   (C7_error_finding_continues [acctA] [ctrlClean] [] ctrlBoom "" 1 "s1"
      acctA (by decide) (by decide) rfl).1⟩

/-- Claim C9, counterexample: when the object-storage upload fails, the
export response is exactly the metadata dict with a null download URL and a
demo-mode message — the generated artifact bytes (here a non-empty PDF) are
not returned inline anywhere in the response. -/
theorem C9_counterexample :
    EvidenceEngine.export_audit_report [orgA] [acctA] [] [] 1 none none "pdf"
        [37, 80, 68, 70] [123] false "https://signed" "NOW" "TS"
      = .ok [("report_key", .s "audit-reports/1/TS.pdf"),
             ("download_url", .nul),
             ("format", .s "pdf"), ("generated_at", .s "NOW"),
             ("total_audit_logs", .n 0), ("total_findings", .n 0),
             ("message",
              .s "Report generated successfully (S3 upload unavailable in demo mode)")]
    ∧ ([37, 80, 68, 70] : List Nat) ≠ [] := by
  decide

/-- Claim C9, amended: on upload failure the builder still returns a
successful response carrying the report key, format, timestamps and counts,
with download_url null and a message noting that the upload was unavailable
(the degraded indicator) — but no value in the response holds the artifact
bytes; the artifact itself is dropped. -/
theorem C9_degraded_no_bytes (orgs : List Organization)
    (accounts : List CloudAccount) (logs : List EvidenceEngine.AuditRow)
    (results : List ControlResult) (oid : Nat) (sd ed : Option String)
    (fmt : String) (pb jb : List Nat) (purl now tkey : String)
    (org : Organization)
    (hfind : orgs.find? (fun o => o.id = oid) = some org) :
    ∃ resp, EvidenceEngine.export_audit_report orgs accounts logs results oid
        sd ed fmt pb jb false purl now tkey = .ok resp
      ∧ ("download_url", RVal.nul) ∈ resp
      ∧ ("message",
          RVal.s "Report generated successfully (S3 upload unavailable in demo mode)")
        ∈ resp
      ∧ resp.all (fun p => !isBytesVal p.2) = true := by
  unfold EvidenceEngine.export_audit_report
  rw [hfind]
  refine ⟨_, rfl, ?_, ?_, ?_⟩
  · simp
  · simp
  · rfl

/-- Claim C9, witness: the degraded response on the fixture organization. -/
theorem C9_degraded_no_bytes_witness :
    [orgA].find? (fun o => o.id = 1) = some orgA
    ∧ ∃ resp, EvidenceEngine.export_audit_report [orgA] [acctA] [] [] 1 none
        none "pdf" [37, 80, 68, 70] [123] false "https://signed" "NOW" "TS"
        = .ok resp
      ∧ ("download_url", RVal.nul) ∈ resp
      ∧ ("message",
          RVal.s "Report generated successfully (S3 upload unavailable in demo mode)")
        ∈ resp
      ∧ resp.all (fun p => !isBytesVal p.2) = true :=
  ⟨by decide,
   C9_degraded_no_bytes [orgA] [acctA] [] [] 1 none none "pdf"
     [37, 80, 68, 70] [123] "https://signed" "NOW" "TS" orgA (by decide)⟩

/-- Claim C10: when no ControlResult matches the requested scope,
get_compliance_score returns score 0, total 0, pass 0, fail 0, fixed 0, and
the response carries no by_severity breakdown. -/
theorem C10_empty_scope_zeros (results : List ControlResult)
    (accounts : List CloudAccount) (account_id organization_id : Option Nat)
    (h : DetectionEngine.scopeResults results accounts account_id
        organization_id = []) :
    DetectionEngine.get_compliance_score results accounts account_id
        organization_id
      = { score := 0, total := 0, pass := 0, fail := 0, fixed := 0,
          by_severity := none } := by
  simp only [DetectionEngine.get_compliance_score, h, List.isEmpty_nil,
    if_true]

/-- Claim C10, witness: the empty-scope response on an account with no
results. -/
theorem C10_empty_scope_zeros_witness :
    DetectionEngine.scopeResults [rowPass] [acctA] (some 2) none = []
    ∧ DetectionEngine.get_compliance_score [rowPass] [acctA] (some 2) none
      = { score := 0, total := 0, pass := 0, fail := 0, fixed := 0,
          by_severity := none } :=
  ⟨by decide, C10_empty_scope_zeros [rowPass] [acctA] (some 2) none (by decide)⟩

end Autonomus
